import Mathlib

/-!
Shallow embedding of the provisioning / rollback core of the Azure
machine-controller-manager provider (package `azure`, file
`pkg/azure/fake/mockclient.go` of the analysed snapshot).

Pure helpers (resource naming, data-disk set building, VM-parameter and
image-reference construction) are translated directly as Lean functions.
The stateful orchestration (`createVMNicDisk`, `deleteVMNicDisks`) is
translated against an explicit environment of backend-call results: every
external call (subnet get, NIC create/await/result, image get, marketplace
get/create, VM create/await/result, and the teardown collaborators) is an
oracle field of an environment record, and the orchestrator is a pure
function of that environment which additionally records a trace (teardown
invocations, logged errors, which image/marketplace calls were issued).

Go `*int32` / `*string` pointers become `Option`; a nil-pointer dereference
or an out-of-range index becomes `none` (for pure helpers) or the `panic`
outcome (for the orchestrator).  `int32(i)` conversions are modelled by
`int32ofNat` with explicit wrap-around modulo 2^32.
-/

set_option autoImplicit false

namespace AzureProvider

/-! ## Go standard-library string operations used by the core -/

def splitOnCharAux (sep : Char) : List Char → List Char → List (List Char)
  | [], acc => [acc.reverse]
  | c :: rest, acc =>
      if c = sep then acc.reverse :: splitOnCharAux sep rest []
      else splitOnCharAux sep rest (c :: acc)

/-- Go `strings.Split(s, sep)` for a one-character separator: cuts `s` at
every occurrence of `sep`; the result always has one more element than the
number of separator occurrences (`strings.Split("", sep) = [""]`). -/
def stringsSplit (s : String) (sep : Char) : List String :=
  (splitOnCharAux sep s.data []).map (fun cs => String.mk cs)

/-- Go `strings.ToLower` (character-wise lowering). -/
def stringsToLower (s : String) : String :=
  String.mk (s.data.map Char.toLower)

/-! ## Constants (`const` block of the source) -/

def nicSuffix : String := "-nic"

def diskSuffix : String := "-os-disk"

def dataDiskSuffix : String := "-data-disk"

def prometheusServiceSubnet : String := "subnet"

def prometheusServiceVM : String := "virtual_machine"

def prometheusServiceNIC : String := "network_interfaces"

def prometheusServiceDisk : String := "disks"

/-! ## Machine integers -/

/-- Go's `int32(i)` conversion applied to a non-negative index `i`:
wrap modulo `2^32` into the signed range `[-2^31, 2^31)`. -/
def int32ofNat (n : Nat) : Int :=
  (((n + 2 ^ 31) % 2 ^ 32 : Nat) : Int) - 2 ^ 31

theorem int32ofNat_eq_of_lt {n : Nat} (h : n < 2 ^ 31) : int32ofNat n = (n : Int) := by
  unfold int32ofNat
  have hlt : n + 2 ^ 31 < 2 ^ 32 := by omega
  rw [Nat.mod_eq_of_lt hlt]
  push_cast
  ring

/-! ## Data model (`pkg/azure/apis` structures, restricted to the fields the
core reads; tags, OS-profile/SSH material and user-data encoding are elided
as they never influence the verified control flow) -/

/-- `api.AzureDataDisk`: one declarative data-disk descriptor.
`lun` is `*int32` in Go, hence `Option Int`. -/
structure AzureDataDisk where
  name : String
  lun : Option Int
  caching : String
  storageAccountType : String
  diskSizeGB : Int
deriving DecidableEq, Repr

/-- `api.AzureImageReference`: image either by explicit `id` or by a
colon-separated `urn` (`*string` in Go, hence `Option String`). -/
structure AzureImageReference where
  id : String
  urn : Option String
deriving DecidableEq, Repr

/-- OS-disk part of `api.AzureStorageProfile`. -/
structure AzureOSDisk where
  caching : String
  storageAccountType : String
  diskSizeGB : Int
  createOption : String
deriving DecidableEq, Repr

/-- `api.AzureProviderSpec` restricted to the fields read by the core. -/
structure AzureProviderSpec where
  location : String
  resourceGroup : String
  vnetName : String
  vnetResourceGroup : Option String
  subnetName : String
  vmSize : String
  imageReference : AzureImageReference
  osDisk : AzureOSDisk
  dataDisks : Option (List AzureDataDisk)
  zone : Option Int
  availabilitySetID : Option String
  identityID : Option String
deriving DecidableEq, Repr

/-! ## Resource naming (`dependencyNameFromVMName`,
`dependencyNameFromVMNameAndDependency`, `getAzureDataDiskPrefix`,
`getAzureDataDiskNames`) -/

def dependencyNameFromVMName (vmName suffix : String) : String :=
  vmName ++ suffix

def dependencyNameFromVMNameAndDependency (dependency vmName suffix : String) : String :=
  vmName ++ "-" ++ dependency ++ suffix

/-- Success path of `getAzureDataDiskPrefix` once the `*int32` LUN pointer
has been dereferenced: `fmt.Sprintf("%s-%d", name, lun)` when a name is
supplied, else `fmt.Sprintf("%d", lun)`. -/
def getAzureDataDiskPrefixCore (name : String) (lun : Int) : String :=
  if name ≠ "" then name ++ "-" ++ toString lun else toString lun

/-- `getAzureDataDiskPrefix(name string, lun *int32)`: both branches of the
Go function dereference `*lun`, so a nil LUN is a nil-pointer panic,
modelled as `none`. -/
def getAzureDataDiskPrefix (name : String) (lun : Option Int) : Option String :=
  match lun with
  | none => none
  | some l => some ( getAzureDataDiskPrefixCore name l)

/-- Body of the loop of `getAzureDataDiskNames` at index `i`: the LUN is
the descriptor's when non-nil, else `int32(i)`; the name is derived via
`dependencyNameFromVMNameAndDependency` from the disk prefix. -/
def azureDataDiskNameAt (vmname suffix : String) (i : Nat) (disk : AzureDataDisk) : String :=
  let diskLun : Int :=
    match disk.lun with
    | some l => l
    | none => int32ofNat i
  dependencyNameFromVMNameAndDependency ( getAzureDataDiskPrefixCore disk.name diskLun) vmname suffix

def getAzureDataDiskNamesAux (vmname suffix : String) (i : Nat) :
    List AzureDataDisk → List String
  | [] => []
  | disk :: rest =>
      azureDataDiskNameAt vmname suffix i disk ::
        getAzureDataDiskNamesAux vmname suffix (i + 1) rest

/-- `getAzureDataDiskNames(azureDataDisks, vmname, suffix)`. -/
def getAzureDataDiskNames (azureDataDisks : List AzureDataDisk) (vmname suffix : String) :
    List String :=
  getAzureDataDiskNamesAux vmname suffix 0 azureDataDisks

/-! ## Disk set builder (`generateDataDisks`) -/

/-- `compute.DataDisk` restricted to the fields the builder sets. -/
structure DataDisk where
  lun : Int
  name : String
  caching : String
  storageAccountType : String
  diskSizeGB : Int
  createOption : String
deriving DecidableEq, Repr

/-- Body of the loop of `generateDataDisks` at index `i`:
LUN from the descriptor or `int32(i)`; name via the naming helpers;
caching defaulted to `"None"` (`compute.CachingTypesNone`) when empty;
size and storage-account type passed through; create option always
`"Empty"` (`compute.DiskCreateOptionTypesEmpty`). -/
def buildDataDisk (vmName : String) (i : Nat) (azureDataDisk : AzureDataDisk) : DataDisk :=
  let dataDiskLun : Int :=
    match azureDataDisk.lun with
    | some l => l
    | none => int32ofNat i
  let dataDiskName :=
    dependencyNameFromVMNameAndDependency
      ( getAzureDataDiskPrefixCore azureDataDisk.name dataDiskLun) vmName dataDiskSuffix
  let caching := if azureDataDisk.caching ≠ "" then azureDataDisk.caching else "None"
  { lun := dataDiskLun
    name := dataDiskName
    caching := caching
    storageAccountType := azureDataDisk.storageAccountType
    diskSizeGB := azureDataDisk.diskSizeGB
    createOption := "Empty" }

def generateDataDisksAux (vmName : String) (i : Nat) : List AzureDataDisk → List DataDisk
  | [] => []
  | azureDataDisk :: rest =>
      buildDataDisk vmName i azureDataDisk :: generateDataDisksAux vmName (i + 1) rest

/-- `generateDataDisks(vmName, azureDataDisks)`. -/
def generateDataDisks (vmName : String) (azureDataDisks : List AzureDataDisk) : List DataDisk :=
  generateDataDisksAux vmName 0 azureDataDisks

theorem generateDataDisksAux_length (vmName : String) (i : Nat) (dds : List AzureDataDisk) :
    (generateDataDisksAux vmName i dds).length = dds.length := by
  induction dds generalizing i with
  | nil => rfl
  | cons d rest ih => simp [generateDataDisksAux, ih]

theorem generateDataDisks_length (vmName : String) (dds : List AzureDataDisk) :
    (generateDataDisks vmName dds).length = dds.length :=
  generateDataDisksAux_length vmName 0 dds

theorem generateDataDisksAux_get (vmName : String) (i j : Nat) (dds : List AzureDataDisk)
    (h : j < dds.length) (h' : j < (generateDataDisksAux vmName i dds).length) :
    (generateDataDisksAux vmName i dds).get ⟨j, h'⟩ = buildDataDisk vmName (i + j) (dds.get ⟨j, h⟩) := by
  induction dds generalizing i j with
  | nil => exact absurd h (by simp)
  | cons d rest ih =>
      cases j with
      | zero => simp [generateDataDisksAux]
      | succ k =>
          have hk : k < rest.length := by simpa using h
          have hk' : k < (generateDataDisksAux vmName (i + 1) rest).length := by
            rw [generateDataDisksAux_length]; exact hk
          have := ih (i + 1) k hk hk'
          simpa [generateDataDisksAux, Nat.add_assoc, Nat.add_comm 1 k] using this

theorem generateDataDisks_get (vmName : String) (j : Nat) (dds : List AzureDataDisk)
    (h : j < dds.length) (h' : j < (generateDataDisks vmName dds).length) :
    (generateDataDisks vmName dds).get ⟨j, h'⟩ = buildDataDisk vmName j (dds.get ⟨j, h⟩) := by
  have := generateDataDisksAux_get vmName 0 j dds h h'
  simpa using this

/-! ## Image reference (`getImageReference`) -/

/-- `compute.ImageReference` (all fields are `*string` in the SDK). -/
structure ImageReference where
  id : Option String
  publisher : Option String
  offer : Option String
  sku : Option String
  version : Option String
deriving DecidableEq, Repr

/-- `getImageReference(d)`: when the spec's image `ID` is non-empty the
reference is built from the ID alone; otherwise the `URN` pointer is
dereferenced (`none` = nil-pointer panic) and `strings.Split(urn, ":")` is
indexed at positions 0..3 without a guard (`none` = index-out-of-range
panic when the split has fewer than four components). -/
def getImageReference (spec : AzureProviderSpec) : Option ImageReference :=
  let imageRefClass := spec.imageReference
  if imageRefClass.id ≠ "" then
    some { id := some imageRefClass.id
           publisher := none
           offer := none
           sku := none
           version := none }
  else
    match imageRefClass.urn with
    | none => none
    | some urn =>
        match stringsSplit urn ':' with
        | publisher :: offer :: sku :: version :: _ =>
            some { id := none
                   publisher := some publisher
                   offer := some offer
                   sku := some sku
                   version := some version }
        | _ => none

/-! ## Virtual-machine parameters (`getVMParameters`) -/

/-- `compute.Plan` / the plan part of `compute.VirtualMachineImage`. -/
structure PlanRef where
  name : String
  product : String
  publisher : String
deriving DecidableEq, Repr

/-- `compute.VirtualMachineImage` restricted to the `Plan` field the core
reads (`Plan == nil` means no commercial plan). -/
structure VMImage where
  plan : Option PlanRef
deriving DecidableEq, Repr

/-- `marketplaceordering.AgreementTerms` restricted to `Accepted *bool`. -/
structure Agreement where
  accepted : Option Bool
deriving DecidableEq, Repr

/-- `spec.Properties.StorageProfile.DataDisks != nil && len(...) > 0`. -/
def hasDataDisks (spec : AzureProviderSpec) : Bool :=
  match spec.dataDisks with
  | some dds => dds.length > 0
  | none => false

/-- `compute.VirtualMachine` restricted to the fields `getVMParameters`
sets and the claims inspect (tags and the OS profile / user-data encoding
are elided). -/
structure VirtualMachine where
  name : String
  location : String
  plan : Option PlanRef
  vmSize : String
  imageReference : ImageReference
  osDiskName : String
  osDiskCaching : String
  osDiskStorageAccountType : String
  osDiskSizeGB : Int
  osDiskCreateOption : String
  networkInterfaceID : String
  dataDisks : Option (List DataDisk)
  zones : Option (List String)
  availabilitySetID : Option String
  identityID : Option String
deriving DecidableEq, Repr

/-- `getVMParameters(vmName, image, networkInterfaceReferenceID)`:
builds the submitted VM definition.  `none` models the panic that
`getImageReference` can raise.  Zone handling mirrors the source:
`if Zone != nil` attach the zone list, `else if AvailabilitySet != nil`
attach the availability-set reference; the identity is attached only when
the identity pointer is non-nil and non-empty. -/
def getVMParameters (spec : AzureProviderSpec) (vmName : String) (image : Option VMImage)
    (networkInterfaceReferenceID : String) : Option VirtualMachine :=
  let diskName := dependencyNameFromVMName vmName diskSuffix
  match getImageReference spec with
  | none => none
  | some imageReference =>
      let plan : Option PlanRef :=
        match image with
        | some img => img.plan
        | none => none
      let base : VirtualMachine :=
        { name := vmName
          location := spec.location
          plan := plan
          vmSize := spec.vmSize
          imageReference := imageReference
          osDiskName := diskName
          osDiskCaching := spec.osDisk.caching
          osDiskStorageAccountType := spec.osDisk.storageAccountType
          osDiskSizeGB := spec.osDisk.diskSizeGB
          osDiskCreateOption := spec.osDisk.createOption
          networkInterfaceID := networkInterfaceReferenceID
          dataDisks := none
          zones := none
          availabilitySetID := none
          identityID := none }
      let withDisks : VirtualMachine :=
        if hasDataDisks spec then
          { base with dataDisks := some (generateDataDisks vmName (spec.dataDisks.getD [])) }
        else base
      let withPlacement : VirtualMachine :=
        match spec.zone with
        | some zone => { withDisks with zones := some [toString zone] }
        | none =>
            match spec.availabilitySetID with
            | some avSetID => { withDisks with availabilitySetID := some avSetID }
            | none => withDisks
      let withIdentity : VirtualMachine :=
        match spec.identityID with
        | some identityID =>
            if identityID ≠ "" then { withPlacement with identityID := some identityID }
            else withPlacement
        | none => withPlacement
      some withIdentity

/-! ## Errors -/

/-- Error values flowing through the orchestrators.
`raw` is an opaque backend error; `armFail service inner` models
`spi.OnARMAPIErrorFail(service, inner, ...)` (modelled from the spec:
errors "propagate to the caller with enough context (resource kind, name,
upstream message)", so the wrapper records the resource-kind label and the
upstream error); `nicConflict` models the
`fmt.Errorf("Cannot delete NIC %s because it is attached to VM %s", ...)`
conflict error of the NIC deleter; `aggregate` models the combined error of
the parallel deletion batch (modelled from the spec: "reported as a single
combined error listing every failing resource"). -/
inductive MockErr where
  | raw (msg : String)
  | armFail (service : String) (inner : MockErr)
  | nicConflict (nicName vmHolding : String)
  | aggregate (errs : List MockErr)

/-- Outcome of a backend `Get`-style call, separating the 404 class that
`spi.NotFound(err)` recognises from every other error. -/
inductive FetchResult (α : Type) where
  | ok (a : α)
  | notFound
  | err (e : MockErr)

/-! ## Teardown orchestrator (`deleteVMNicDisks`) -/

/-- Modelled from the spec: results of the backend/collaborator calls the
teardown makes.  `vmGet` is `clients.GetVM().Get`, `deleteVM` is
`spi.DeleteVM`, `nicFetch` is `spi.FetchAttachedVMfromNIC` (returning the
name of the VM holding the NIC, `""` for unattached), `deleteNIC` is
`spi.DeleteNIC`, `osDiskDelete` / `dataDiskDelete` are the per-disk
fetch-and-delete outcomes consumed by `spi.GetDeleterForDisk`. -/
structure TeardownEnv where
  vmGet : FetchResult Unit
  deleteVM : Except MockErr Unit
  nicFetch : FetchResult String
  deleteNIC : Except MockErr Unit
  osDiskDelete : FetchResult Unit
  dataDiskDelete : String → FetchResult Unit

/-- Modelled from the spec: `spi.GetDeleterForDisk` yields a deleter that
treats a missing disk as a no-op success and surfaces any other failure. -/
def GetDeleterForDisk (outcome : FetchResult Unit) : Except MockErr Unit :=
  match outcome with
  | .ok _ => .ok ()
  | .notFound => .ok ()
  | .err e => .error e

/-- Modelled from the spec: `spi.RunInParallel` runs the deleters, waits
for all of them and aggregates the failures into one combined error; it
succeeds only when every deleter succeeded. -/
def RunInParallel (results : List (Except MockErr Unit)) : Except MockErr Unit :=
  let errs := results.filterMap (fun r =>
    match r with
    | .error e => some e
    | .ok _ => none)
  match errs with
  | [] => .ok ()
  | _ => .error (.aggregate errs)

/-- The `nicDeleter` closure of `deleteVMNicDisks`: fetch the VM attached
to the NIC; not-found is a no-op success; any other fetch error is
surfaced; a non-empty holder is a conflict error and the delete is not
issued; otherwise `spi.DeleteNIC` runs.  The second component records
whether the NIC delete operation was issued. -/
def nicDeleter (tenv : TeardownEnv) (nicName : String) : Except MockErr Unit × Bool :=
  match tenv.nicFetch with
  | .notFound => (.ok (), false)
  | .err e => (.error e, false)
  | .ok vmHoldingNic =>
      if vmHoldingNic ≠ "" then (.error (.nicConflict nicName vmHoldingNic), false)
      else (tenv.deleteNIC, true)

/-- Result of `deleteVMNicDisks` plus an execution trace: whether the VM
delete was issued, whether the NIC delete was issued, and whether the
parallel deletion phase was reached at all. -/
structure TeardownResult where
  result : Except MockErr Unit
  vmDeleteIssued : Bool
  nicDeleteIssued : Bool
  deletionPhaseRun : Bool

/-- The deleter fan-out of `deleteVMNicDisks`: the NIC deleter, the OS-disk
deleter and one deleter per data-disk name, run through `RunInParallel`. -/
def deletionPhase (tenv : TeardownEnv) (nicName : String) (dataDiskNames : List String)
    (vmDeleteIssued : Bool) : TeardownResult :=
  let nic := nicDeleter tenv nicName
  let diskDeleter := GetDeleterForDisk tenv.osDiskDelete
  let dataDeleters := dataDiskNames.map (fun n => GetDeleterForDisk (tenv.dataDiskDelete n))
  { result := RunInParallel (nic.1 :: diskDeleter :: dataDeleters)
    vmDeleteIssued := vmDeleteIssued
    nicDeleteIssued := nic.2
    deletionPhaseRun := true }

/-- `deleteVMNicDisks(ctx, clients, resourceGroupName, VMName, nicName,
diskName, dataDiskNames)`: fetch the VM; on success wait for data-disk
detachment (trace-free here) and delete the VM, aborting on a delete
failure; on not-found skip straight to the deletion phase; on any other
fetch error abort with the wrapped error before any deletion. -/
def deleteVMNicDisks (tenv : TeardownEnv) (resourceGroupName VMName nicName diskName : String)
    (dataDiskNames : List String) : TeardownResult :=
  match tenv.vmGet with
  | .ok _ =>
      match tenv.deleteVM with
      | .error deleteErr =>
          { result := .error deleteErr
            vmDeleteIssued := true
            nicDeleteIssued := false
            deletionPhaseRun := false }
      | .ok _ => deletionPhase tenv nicName dataDiskNames true
  | .notFound => deletionPhase tenv nicName dataDiskNames false
  | .err vmErr =>
      { result := .error (.armFail prometheusServiceVM vmErr)
        vmDeleteIssued := false
        nicDeleteIssued := false
        deletionPhaseRun := false }

/-! ## Provisioning orchestrator (`createVMNicDisk`) -/

/-- Modelled from the spec: results of the external calls the creation
sequence makes, in source order.  `decode` is
`decodeProviderSpecAndSecret`, `setup` is `d.SPI.Setup`, `subnetGet` is
`clients.GetSubnet().Get`, the three `nic*` fields are
`CreateOrUpdate` / `WaitForCompletionRef` / `Result` on the NIC future
(the `Result` success carries the realized NIC's `ID`), `imageGet` is
`clients.GetImages().Get`, `mktGet` / `mktCreate` are the marketplace
agreement fetch / acceptance, and the three `vm*` fields are the VM
future's submit / await / fetch. -/
structure CreateEnv where
  decode : Except MockErr AzureProviderSpec
  setup : Except MockErr Unit
  subnetGet : Except MockErr Unit
  nicSubmit : Except MockErr Unit
  nicAwait : Except MockErr Unit
  nicResult : Except MockErr String
  imageGet : Except MockErr VMImage
  mktGet : Except MockErr Agreement
  mktCreate : Except MockErr Unit
  vmSubmit : Except MockErr Unit
  vmAwait : Except MockErr Unit
  vmResult : Except MockErr Unit

/-- The argument bundle `(resourceGroupName, vmName, nicName, diskName,
dataDiskNames)` that `createVMNicDisk` passes to `deleteVMNicDisks` on
every rollback. -/
structure TeardownArgs where
  resourceGroupName : String
  vmName : String
  nicName : String
  diskName : String
  dataDiskNames : List String
deriving DecidableEq, Repr

/-- The derived names of the `var` block of `createVMNicDisk`:
`vmName = strings.ToLower(req.Machine.Name)`, NIC / OS-disk names via
`dependencyNameFromVMName`, and the data-disk names via
`getAzureDataDiskNames` when the spec has a non-empty data-disk list. -/
def derivedTeardownArgs (providerSpec : AzureProviderSpec) (machineName : String) : TeardownArgs :=
  let vmName := stringsToLower machineName
  let nicName := dependencyNameFromVMName vmName nicSuffix
  let diskName := dependencyNameFromVMName vmName diskSuffix
  let dataDiskNames :=
    match providerSpec.dataDisks with
    | some dds =>
        if 0 < dds.length then getAzureDataDiskNames dds vmName dataDiskSuffix else []
    | none => []
  { resourceGroupName := providerSpec.resourceGroup
    vmName := vmName
    nicName := nicName
    diskName := diskName
    dataDiskNames := dataDiskNames }

/-- Termination state of the creation sequence: a nil-dereference /
out-of-range panic, a surfaced error, or success. -/
inductive CreateOutcome where
  | panicked
  | failure (e : MockErr)
  | success

/-- Result of `createVMNicDisk` plus an execution trace: the teardown
invocations performed for rollback, the teardown errors that were only
logged (`klog.Errorf`), whether the image / marketplace calls were issued,
and the derived dependent-resource names. -/
structure CreateResult where
  outcome : CreateOutcome
  teardownCalls : List TeardownArgs
  loggedErrors : List MockErr
  imageGetIssued : Bool
  mktGetIssued : Bool
  mktCreateIssued : Bool
  derivedNames : Option TeardownArgs

/-- One rollback invocation: run `deleteVMNicDisks` with the derived
names; a failing teardown contributes only a logged error. -/
def invokeTeardown (tenv : TeardownEnv) (a : TeardownArgs) : List MockErr :=
  match (deleteVMNicDisks tenv a.resourceGroupName a.vmName a.nicName a.diskName
      a.dataDiskNames).result with
  | .error deleteErr => [deleteErr]
  | .ok _ => []

/-- The repeated rollback block of `createVMNicDisk`:
`deleteErr := d.deleteVMNicDisks(...); if deleteErr != nil klog.Errorf(...);
return nil, e`. -/
def rollbackAndFail (tenv : TeardownEnv) (args : TeardownArgs) (e : MockErr)
    (img mg mc : Bool) : CreateResult :=
  { outcome := .failure e
    teardownCalls := [args]
    loggedErrors := invokeTeardown tenv args
    imageGetIssued := img
    mktGetIssued := mg
    mktCreateIssued := mc
    derivedNames := some args }

/-- Intermediate result of the image-resolution block (lines guarded by
`if imageRefClass.ID == ""`): a panic inside `getImageReference`, an
early-exit failure, or the `vmImageRef` to pass on, together with which
image / marketplace calls were issued. -/
inductive ImagePhaseResult where
  | panicked
  | failed (e : MockErr) (img mg mc : Bool)
  | done (vmImageRef : Option VMImage) (img mg mc : Bool)

/-- The image-resolution block of `createVMNicDisk`: skipped entirely when
the image `ID` is non-empty; otherwise `getImageReference` (panic on a bad
URN), then the image fetch, then — only when the image carries a plan —
the marketplace-agreement fetch and, unless `Accepted` is already true,
the acceptance call. -/
def imagePhase (env : CreateEnv) (providerSpec : AzureProviderSpec) : ImagePhaseResult :=
  if providerSpec.imageReference.id = "" then
    match getImageReference providerSpec with
    | none => .panicked
    | some _ =>
        match env.imageGet with
        | .error e => .failed (.armFail prometheusServiceVM e) true false false
        | .ok vmImage =>
            match vmImage.plan with
            | none => .done (some vmImage) true false false
            | some _ =>
                match env.mktGet with
                | .error e => .failed (.armFail prometheusServiceVM e) true true false
                | .ok agreement =>
                    if agreement.accepted = some true then
                      .done (some vmImage) true true false
                    else
                      match env.mktCreate with
                      | .error e => .failed (.armFail prometheusServiceVM e) true true true
                      | .ok _ => .done (some vmImage) true true true
  else .done none false false false

/-- The VM-creation block of `createVMNicDisk`: build `VMParameters` via
`getVMParameters` (panic propagates), then submit, await and fetch the VM,
rolling back on each failure. -/
def vmPhase (env : CreateEnv) (tenv : TeardownEnv) (providerSpec : AzureProviderSpec)
    (args : TeardownArgs) (vmImageRef : Option VMImage) (nicID : String)
    (img mg mc : Bool) : CreateResult :=
  match getVMParameters providerSpec args.vmName vmImageRef nicID with
  | none =>
      { outcome := .panicked
        teardownCalls := []
        loggedErrors := []
        imageGetIssued := img
        mktGetIssued := mg
        mktCreateIssued := mc
        derivedNames := some args }
  | some _VMParameters =>
      match env.vmSubmit with
      | .error e => rollbackAndFail tenv args (.armFail prometheusServiceVM e) img mg mc
      | .ok _ =>
          match env.vmAwait with
          | .error e => rollbackAndFail tenv args (.armFail prometheusServiceVM e) img mg mc
          | .ok _ =>
              match env.vmResult with
              | .error e => rollbackAndFail tenv args (.armFail prometheusServiceVM e) img mg mc
              | .ok _ =>
                  { outcome := .success
                    teardownCalls := []
                    loggedErrors := []
                    imageGetIssued := img
                    mktGetIssued := mg
                    mktCreateIssued := mc
                    derivedNames := some args }

/-- `createVMNicDisk(req)`: decode the spec (failure surfaces with no
rollback), derive the dependent-resource names, set up the clients and
fetch the subnet (failures surface with no rollback — nothing was created
yet), then the NIC submit / await / fetch (each failure rolls back; the
NIC submit and await failures are wrapped by `OnARMAPIErrorFail` with the
NIC service label, the NIC fetch failure is returned unwrapped), then the
image-resolution block, then the VM block. -/
def createVMNicDisk (env : CreateEnv) (tenv : TeardownEnv) (machineName : String) : CreateResult :=
  match env.decode with
  | .error e =>
      { outcome := .failure e
        teardownCalls := []
        loggedErrors := []
        imageGetIssued := false
        mktGetIssued := false
        mktCreateIssued := false
        derivedNames := none }
  | .ok providerSpec =>
      let args := derivedTeardownArgs providerSpec machineName
      match env.setup with
      | .error e =>
          { outcome := .failure e
            teardownCalls := []
            loggedErrors := []
            imageGetIssued := false
            mktGetIssued := false
            mktCreateIssued := false
            derivedNames := some args }
      | .ok _ =>
          match env.subnetGet with
          | .error e =>
              { outcome := .failure (.armFail prometheusServiceSubnet e)
                teardownCalls := []
                loggedErrors := []
                imageGetIssued := false
                mktGetIssued := false
                mktCreateIssued := false
                derivedNames := some args }
          | .ok _ =>
              match env.nicSubmit with
              | .error e =>
                  rollbackAndFail tenv args (.armFail prometheusServiceNIC e) false false false
              | .ok _ =>
                  match env.nicAwait with
                  | .error e =>
                      rollbackAndFail tenv args (.armFail prometheusServiceNIC e) false false false
                  | .ok _ =>
                      match env.nicResult with
                      | .error e => rollbackAndFail tenv args e false false false
                      | .ok nicID =>
                          match imagePhase env providerSpec with
                          | .panicked =>
                              { outcome := .panicked
                                teardownCalls := []
                                loggedErrors := []
                                imageGetIssued := false
                                mktGetIssued := false
                                mktCreateIssued := false
                                derivedNames := some args }
                          | .failed e img mg mc => rollbackAndFail tenv args e img mg mc
                          | .done vmImageRef img mg mc =>
                              vmPhase env tenv providerSpec args vmImageRef nicID img mg mc

/-! ## Claim C8 — naming helpers: purity / totality -/

/-- C8 counterexample: the data-disk prefix helper is NOT total on a
nil/absent LUN — `getAzureDataDiskPrefix("disk", nil)` dereferences the
nil LUN pointer in both of its branches (a panic, modelled as `none`), so
it does not return a string for every input. -/
theorem data_disk_prefix_nil_lun_derefs :
    getAzureDataDiskPrefix "disk" none = none ∧
    ∀ name : String, getAzureDataDiskPrefix name none = none :=
  ⟨rfl, fun _ => rfl⟩

/-- C8 (amended): the naming helpers are pure and deterministic, the two
dependency-name concatenations are total for every input, and the
data-disk prefix function is total for every present (non-nil) LUN —
but it dereferences the LUN pointer, so an absent/nil LUN is a
nil-pointer panic rather than a returned string. -/
theorem naming_helpers_pure_deterministic :
    (∀ vmName suffix : String, dependencyNameFromVMName vmName suffix = vmName ++ suffix) ∧
    (∀ dependency vmName suffix : String,
        dependencyNameFromVMNameAndDependency dependency vmName suffix =
          vmName ++ "-" ++ dependency ++ suffix) ∧
    (∀ (name : String) (l : Int),
        getAzureDataDiskPrefix name (some l) =
          some (if name ≠ "" then name ++ "-" ++ toString l else toString l)) ∧
    (∀ name : String, getAzureDataDiskPrefix name none = none) :=
  ⟨fun _ _ => rfl, fun _ _ _ => rfl, fun _ _ => rfl, fun _ => rfl⟩

/-! ## Claim C2 — happy-path derived names -/

/-- C2 counterexample: for instance name `"vm-1"` and the single data disk
`{name: "", lun: nil, sizeGB: 50}`, the derived data-disk name is
`"vm-1-0-data-disk"` (`vmName ++ "-" ++ prefix ++ suffix`), not the
`"0-vm-1-data-disk"` the claim states. -/
theorem happy_path_data_disk_name_counterexample :
    getAzureDataDiskNames
        [{ name := "", lun := none, caching := "", storageAccountType := "", diskSizeGB := 50 }]
        "vm-1" dataDiskSuffix = ["vm-1-0-data-disk"] ∧
    ("vm-1-0-data-disk" : String) ≠ "0-vm-1-data-disk" := by
  constructor
  · rfl
  · decide

/-- C2 (amended): for the happy-path scenario with instance name `"vm-1"`
and one data disk `{name: "", lun: nil, sizeGB: 50}`, the derived NIC name
is `"vm-1-nic"` and the derived data-disk name is `"vm-1-0-data-disk"`
with LUN 0. -/
theorem happy_path_derived_names :
    dependencyNameFromVMName "vm-1" nicSuffix = "vm-1-nic" ∧
    getAzureDataDiskNames
        [{ name := "", lun := none, caching := "", storageAccountType := "", diskSizeGB := 50 }]
        "vm-1" dataDiskSuffix = ["vm-1-0-data-disk"] ∧
    (generateDataDisks "vm-1"
        [{ name := "", lun := none, caching := "", storageAccountType := "", diskSizeGB := 50 }]).map
        (fun d => (d.name, d.lun)) = [("vm-1-0-data-disk", (0 : Int))] := by
  refine ⟨rfl, rfl, ?_⟩
  decide

/-! ## Claim C3 — disk set builder -/

/-- C3: for every data-disk list, the disk built at position `i` takes the
descriptor's LUN when supplied and `i` otherwise, defaults caching to
`"None"` only when unspecified, passes size and storage-account type
through unchanged, and always uses create option `"Empty"`; the output is
parallel to the input and an empty input yields no disks (and no error —
the builder is total).  The bound `i < 2^31` keeps Go's `int32(i)`
conversion of the positional index exact. -/
theorem generateDataDisks_builds_disks_as_specified
    (vmName : String) (dds : List AzureDataDisk) (i : Nat)
    (h : i < dds.length) (h31 : i < 2 ^ 31) :
    (generateDataDisks vmName dds).length = dds.length ∧
    generateDataDisks vmName [] = [] ∧
    ((∀ l : Int, (dds.get ⟨i, h⟩).lun = some l →
        ((generateDataDisks vmName dds).get
            ⟨i, by rw [generateDataDisks_length]; exact h⟩).lun = l) ∧
      ((dds.get ⟨i, h⟩).lun = none →
        ((generateDataDisks vmName dds).get
            ⟨i, by rw [generateDataDisks_length]; exact h⟩).lun = (i : Int)) ∧
      ((dds.get ⟨i, h⟩).caching ≠ "" →
        ((generateDataDisks vmName dds).get
            ⟨i, by rw [generateDataDisks_length]; exact h⟩).caching = (dds.get ⟨i, h⟩).caching) ∧
      ((dds.get ⟨i, h⟩).caching = "" →
        ((generateDataDisks vmName dds).get
            ⟨i, by rw [generateDataDisks_length]; exact h⟩).caching = "None") ∧
      ((generateDataDisks vmName dds).get
          ⟨i, by rw [generateDataDisks_length]; exact h⟩).diskSizeGB = (dds.get ⟨i, h⟩).diskSizeGB ∧
      ((generateDataDisks vmName dds).get
          ⟨i, by rw [generateDataDisks_length]; exact h⟩).storageAccountType =
        (dds.get ⟨i, h⟩).storageAccountType ∧
      ((generateDataDisks vmName dds).get
          ⟨i, by rw [generateDataDisks_length]; exact h⟩).createOption = "Empty") := by
  refine ⟨generateDataDisks_length vmName dds, rfl, ?_, ?_, ?_, ?_, ?_, ?_, ?_⟩ <;>
    rw [generateDataDisks_get vmName i dds h]
  · intro l hl
    simp only [List.get_eq_getElem] at hl
    simp [buildDataDisk, hl]
  · intro hl
    simp only [List.get_eq_getElem] at hl
    simp [buildDataDisk, hl, int32ofNat_eq_of_lt h31]
  · intro hc
    simp only [List.get_eq_getElem] at hc
    simp [buildDataDisk, hc]
  · intro hc
    simp only [List.get_eq_getElem] at hc
    simp [buildDataDisk, hc]
  · simp [buildDataDisk]
  · simp [buildDataDisk]
  · simp [buildDataDisk]

/-- Concrete mixed data-disk list for the C3 witness: an explicit LUN at
position 0 and an unset LUN at position 1. -/
def ddsW : List AzureDataDisk :=
  [{ name := "d1", lun := some 7, caching := "ReadOnly", storageAccountType := "P", diskSizeGB := 100 },
   { name := "", lun := none, caching := "", storageAccountType := "S", diskSizeGB := 50 }]

/-- C3 witness: the theorem applied at the mixed list above, position 1. -/
theorem generateDataDisks_builds_disks_as_specified_witness :
    1 < ddsW.length ∧ 1 < 2 ^ 31 ∧
    (generateDataDisks "vm-1" ddsW).length = ddsW.length ∧
    ((generateDataDisks "vm-1" ddsW).map (fun d => (d.lun, d.name, d.caching, d.createOption)) =
      [((7 : Int), "vm-1-d1-7-data-disk", "ReadOnly", "Empty"),
       ((1 : Int), "vm-1-1-data-disk", "None", "Empty")]) :=
  ⟨by decide, by decide,
    (generateDataDisks_builds_disks_as_specified "vm-1" ddsW 1 (by decide) (by decide)).1,
    by decide⟩

/-! ## Claim C6 — zone / availability-set precedence -/

theorem getVMParameters_placement (spec : AzureProviderSpec) (vmName : String)
    (image : Option VMImage) (nicID : String) (vm : VirtualMachine)
    (hvm : getVMParameters spec vmName image nicID = some vm) :
    vm.zones =
      (match spec.zone with
       | some zone => some [toString zone]
       | none => none) ∧
    vm.availabilitySetID =
      (match spec.zone with
       | some _ => none
       | none => spec.availabilitySetID) := by
  cases hir : getImageReference spec with
  | none => rw [getVMParameters.eq_def, hir] at hvm; cases hvm
  | some imageReference =>
      rw [getVMParameters.eq_def, hir] at hvm
      simp only [Option.some.injEq] at hvm
      subst hvm
      cases hz : spec.zone <;>
        cases ha : spec.availabilitySetID <;>
          cases hidp : spec.identityID <;>
            by_cases hdd : hasDataDisks spec <;>
              simp [hz, ha, hidp, hdd] <;>
                split <;> simp

/-- C6: whenever the provisioning spec carries a zone, the realized
virtual-machine definition built by `getVMParameters` carries exactly that
zone and no availability-set reference — even when the spec also names an
availability set; conversely an availability-set reference appears on the
realized definition only when the spec's zone is absent. -/
theorem zone_precedes_availability_set
    (spec : AzureProviderSpec) (vmName : String) (image : Option VMImage) (nicID : String)
    (vm : VirtualMachine) (zone : Int)
    (hz : spec.zone = some zone)
    (hvm : getVMParameters spec vmName image nicID = some vm) :
    vm.zones = some [toString zone] ∧
    vm.availabilitySetID = none ∧
    (∀ (spec2 : AzureProviderSpec) (vm2 : VirtualMachine) (avSetID : String),
        getVMParameters spec2 vmName image nicID = some vm2 →
        vm2.availabilitySetID = some avSetID → spec2.zone = none) := by
  obtain ⟨h1, h2⟩ := getVMParameters_placement spec vmName image nicID vm hvm
  refine ⟨by rw [h1, hz], by rw [h2, hz], ?_⟩
  intro spec2 vm2 avSetID hvm2 hav
  obtain ⟨-, h4⟩ := getVMParameters_placement spec2 vmName image nicID vm2 hvm2
  cases hz2 : spec2.zone with
  | none => rfl
  | some z2 => rw [h4, hz2] at hav; cases hav

/-- Concrete spec for the C6 witness: zone 2 and an availability set are
both present. -/
def specZoneW : AzureProviderSpec :=
  { location := "loc"
    resourceGroup := "rg"
    vnetName := "vnet"
    vnetResourceGroup := none
    subnetName := "subnet-a"
    vmSize := "Standard_A1"
    imageReference := { id := "image-id", urn := none }
    osDisk := { caching := "ReadWrite", storageAccountType := "Premium_LRS", diskSizeGB := 30,
                createOption := "FromImage" }
    dataDisks := none
    zone := some 2
    availabilitySetID := some "av-set-id"
    identityID := none }

/-- C6 witness: at `specZoneW` (zone 2 plus an availability set) the
realized definition carries `zones = ["2"]` and no availability set. -/
theorem zone_precedes_availability_set_witness :
    specZoneW.zone = some 2 ∧
    specZoneW.availabilitySetID = some "av-set-id" ∧
    (getVMParameters specZoneW "vm-1" none "nic-id").map
        (fun vm => (vm.zones, vm.availabilitySetID)) = some (some ["2"], none) := by
  refine ⟨rfl, rfl, ?_⟩
  cases hvm : getVMParameters specZoneW "vm-1" none "nic-id" with
  | none => cases hvm
  | some vm =>
      obtain ⟨h1, h2⟩ :=
        zone_precedes_availability_set specZoneW "vm-1" none "nic-id" vm 2 rfl hvm
      simp only [Option.map, h1, h2.1]
      rfl

/-! ## Claim C10 — `getImageReference` totality precondition -/

theorem splitOnCharAux_length (sep : Char) (l acc : List Char) :
    (splitOnCharAux sep l acc).length = l.count sep + 1 := by
  induction l generalizing acc with
  | nil => simp [splitOnCharAux]
  | cons c rest ih =>
      by_cases h : c = sep <;>
        simp [splitOnCharAux, h, ih, List.count_cons]

/-- The number of components `strings.Split(s, sep)` returns is the number
of separator occurrences plus one. -/
theorem stringsSplit_length (s : String) (sep : Char) :
    (stringsSplit s sep).length = s.data.count sep + 1 := by
  simp [stringsSplit, splitOnCharAux_length]

/-- C10: with an empty explicit image ID, `getImageReference` dereferences
the URN pointer and indexes four `':'`-separated components without a
guard; it returns a reference exactly when the URN is present and has at
least three colons, and otherwise the create path reaches the panic
outcome instead of an error return (provided the earlier steps succeeded
so that the image block is reached at all). -/
theorem getImageReference_totality_precondition
    (spec : AzureProviderSpec) (u : String)
    (env : CreateEnv) (tenv : TeardownEnv) (name nicID : String)
    (hid : spec.imageReference.id = "") :
    (spec.imageReference.urn = none → getImageReference spec = none) ∧
    (spec.imageReference.urn = some u → u.data.count ':' < 3 →
        getImageReference spec = none) ∧
    (spec.imageReference.urn = some u → 3 ≤ u.data.count ':' →
        (getImageReference spec).isSome) ∧
    (env.decode = .ok spec → env.setup = .ok () → env.subnetGet = .ok () →
        env.nicSubmit = .ok () → env.nicAwait = .ok () → env.nicResult = .ok nicID →
        getImageReference spec = none →
        (createVMNicDisk env tenv name).outcome = .panicked) := by
  have hsplit : ∀ hu : spec.imageReference.urn = some u,
      (stringsSplit u ':').length = u.data.count ':' + 1 := fun _ => stringsSplit_length u ':'
  refine ⟨?_, ?_, ?_, ?_⟩
  · intro hurn
    simp [getImageReference, hid, hurn]
  · intro hurn hcount
    have hlen : (stringsSplit u ':').length < 4 := by rw [stringsSplit_length]; omega
    simp only [getImageReference, hid, hurn]
    match hsp : stringsSplit u ':' with
    | [] => simp
    | [a] => simp
    | [a, b] => simp
    | [a, b, c] => simp
    | a :: b :: c :: d :: rest => rw [hsp] at hlen; simp at hlen; omega
  · intro hurn hcount
    have hlen : 4 ≤ (stringsSplit u ':').length := by rw [stringsSplit_length]; omega
    simp only [getImageReference, hid, hurn]
    match hsp : stringsSplit u ':' with
    | [] => rw [hsp] at hlen; simp at hlen
    | [a] => rw [hsp] at hlen; simp at hlen
    | [a, b] => rw [hsp] at hlen; simp at hlen
    | [a, b, c] => rw [hsp] at hlen; simp at hlen
    | a :: b :: c :: d :: rest => simp
  · intro hd hs hsub hns hna hnr hnone
    have hip : imagePhase env spec = .panicked := by
      simp [imagePhase, hid, hnone]
    simp [createVMNicDisk, hd, hs, hsub, hns, hna, hnr, hip]

/-- Concrete spec for the C10 witness: empty ID and a URN with only two
colon-separated components. -/
def specBadUrnW : AzureProviderSpec :=
  { specZoneW with imageReference := { id := "", urn := some "canonical:ubuntu" } }

/-- Environment for the C10 witness: decoding yields `specBadUrnW` and the
subnet and NIC steps all succeed, so the image block is reached. -/
def envBadUrnW : CreateEnv :=
  { decode := .ok specBadUrnW
    setup := .ok ()
    subnetGet := .ok ()
    nicSubmit := .ok ()
    nicAwait := .ok ()
    nicResult := .ok "nic-id"
    imageGet := .ok { plan := none }
    mktGet := .ok { accepted := some true }
    mktCreate := .ok ()
    vmSubmit := .ok ()
    vmAwait := .ok ()
    vmResult := .ok () }

/-- All-succeeding teardown environment, reused by several witnesses. -/
def tenvOkW : TeardownEnv :=
  { vmGet := .notFound
    deleteVM := .ok ()
    nicFetch := .ok ""
    deleteNIC := .ok ()
    osDiskDelete := .notFound
    dataDiskDelete := fun _ => .notFound }

/-- C10 witness: a two-component URN (one colon) with empty ID makes
`getImageReference` panic and drives the create path to the panic
outcome. -/
theorem getImageReference_totality_precondition_witness :
    specBadUrnW.imageReference.id = "" ∧
    specBadUrnW.imageReference.urn = some "canonical:ubuntu" ∧
    ("canonical:ubuntu".data.count ':' < 3) ∧
    getImageReference specBadUrnW = none ∧
    (createVMNicDisk envBadUrnW tenvOkW "vm-1").outcome = .panicked := by
  have h := getImageReference_totality_precondition specBadUrnW "canonical:ubuntu"
    envBadUrnW tenvOkW "vm-1" "nic-id" rfl
  have hnone : getImageReference specBadUrnW = none := h.2.1 rfl (by decide)
  exact ⟨rfl, rfl, by decide, hnone, h.2.2.2 rfl rfl rfl rfl rfl rfl hnone⟩

/-! ## Claim C4 — NIC conflict detection during teardown -/

/-- C4: if the NIC is found attached to a VM other than the one being torn
down, the NIC branch of teardown fails with the conflict error and the NIC
delete is not issued; and (for every environment) the NIC delete is issued
only when the fetch confirmed the NIC unattached (holder `""`). -/
theorem teardown_nic_conflict_blocks_delete
    (tenv : TeardownEnv) (rg vmName nicName diskName holder : String)
    (dataDiskNames : List String)
    (hfetch : tenv.nicFetch = .ok holder) (hne : holder ≠ "") (hother : holder ≠ vmName) :
    nicDeleter tenv nicName = (.error (.nicConflict nicName holder), false) ∧
    (deleteVMNicDisks tenv rg vmName nicName diskName dataDiskNames).nicDeleteIssued = false ∧
    (∀ (tenv2 : TeardownEnv) (rg2 vm2 nic2 disk2 : String) (dd2 : List String),
        (deleteVMNicDisks tenv2 rg2 vm2 nic2 disk2 dd2).nicDeleteIssued = true →
        tenv2.nicFetch = .ok "") := by
  have hnic : nicDeleter tenv nicName = (.error (.nicConflict nicName holder), false) := by
    simp [nicDeleter, hfetch, hne]
  refine ⟨hnic, ?_, ?_⟩
  · cases hvm : tenv.vmGet with
    | ok a =>
        cases hdel : tenv.deleteVM with
        | error e => simp [deleteVMNicDisks, hvm, hdel]
        | ok u => simp [deleteVMNicDisks, hvm, hdel, deletionPhase, hnic]
    | notFound => simp [deleteVMNicDisks, hvm, deletionPhase, hnic]
    | err e => simp [deleteVMNicDisks, hvm]
  · intro tenv2 rg2 vm2 nic2 disk2 dd2 hissued
    have hnd : (nicDeleter tenv2 nic2).2 = true := by
      cases hvm : tenv2.vmGet with
      | ok a =>
          cases hdel : tenv2.deleteVM with
          | error e => simp [deleteVMNicDisks, hvm, hdel] at hissued
          | ok u =>
              simpa [deleteVMNicDisks, hvm, hdel, deletionPhase] using hissued
      | notFound => simpa [deleteVMNicDisks, hvm, deletionPhase] using hissued
      | err e => simp [deleteVMNicDisks, hvm] at hissued
    cases hfetch2 : tenv2.nicFetch with
    | notFound => simp [nicDeleter, hfetch2] at hnd
    | err e => simp [nicDeleter, hfetch2] at hnd
    | ok holder2 =>
        by_cases h2 : holder2 = ""
        · rw [h2]
        · simp [nicDeleter, hfetch2, h2] at hnd

/-- Teardown environment for the C4 witness: the VM is already gone and
the NIC is held by `"other-vm"`. -/
def tenvConflictW : TeardownEnv :=
  { vmGet := .notFound
    deleteVM := .ok ()
    nicFetch := .ok "other-vm"
    deleteNIC := .ok ()
    osDiskDelete := .notFound
    dataDiskDelete := fun _ => .notFound }

/-- C4 witness: the conflict environment applied to the theorem. -/
theorem teardown_nic_conflict_blocks_delete_witness :
    tenvConflictW.nicFetch = .ok "other-vm" ∧
    ("other-vm" : String) ≠ "" ∧
    ("other-vm" : String) ≠ "vm-1" ∧
    nicDeleter tenvConflictW "vm-1-nic" =
      (.error (.nicConflict "vm-1-nic" "other-vm"), false) ∧
    (deleteVMNicDisks tenvConflictW "rg" "vm-1" "vm-1-nic" "vm-1-os-disk"
        []).nicDeleteIssued = false := by
  have h := teardown_nic_conflict_blocks_delete tenvConflictW "rg" "vm-1" "vm-1-nic"
    "vm-1-os-disk" "other-vm" [] rfl (by decide) (by decide)
  exact ⟨rfl, by decide, by decide, h.1, h.2.1⟩

/-! ## Claim C5 — teardown tolerates absence -/

/-- C5: a not-found VM fetch skips the VM detach/delete and proceeds
directly to the parallel NIC/disk deletion phase; any other VM fetch error
aborts teardown immediately (nothing deleted, error surfaced wrapped with
the VM service label); and a not-found NIC makes the NIC deletion branch a
no-op success. -/
theorem teardown_tolerates_absence
    (tenv : TeardownEnv) (rg vmName nicName diskName : String)
    (dataDiskNames : List String) (e : MockErr) :
    (tenv.vmGet = .notFound →
        deleteVMNicDisks tenv rg vmName nicName diskName dataDiskNames =
          deletionPhase tenv nicName dataDiskNames false ∧
        (deleteVMNicDisks tenv rg vmName nicName diskName dataDiskNames).vmDeleteIssued = false ∧
        (deleteVMNicDisks tenv rg vmName nicName diskName dataDiskNames).deletionPhaseRun =
          true) ∧
    (tenv.vmGet = .err e →
        deleteVMNicDisks tenv rg vmName nicName diskName dataDiskNames =
          { result := .error (.armFail prometheusServiceVM e)
            vmDeleteIssued := false
            nicDeleteIssued := false
            deletionPhaseRun := false }) ∧
    (tenv.nicFetch = .notFound → nicDeleter tenv nicName = (.ok (), false)) := by
  refine ⟨?_, ?_, ?_⟩
  · intro hvm
    refine ⟨by simp [deleteVMNicDisks, hvm], by simp [deleteVMNicDisks, hvm, deletionPhase],
      by simp [deleteVMNicDisks, hvm, deletionPhase]⟩
  · intro hvm
    simp [deleteVMNicDisks, hvm]
  · intro hfetch
    simp [nicDeleter, hfetch]

/-- Teardown environment for the C5 witness: VM and NIC both absent. -/
def tenvAbsentW : TeardownEnv :=
  { vmGet := .notFound
    deleteVM := .ok ()
    nicFetch := .notFound
    deleteNIC := .ok ()
    osDiskDelete := .notFound
    dataDiskDelete := fun _ => .notFound }

/-- Teardown environment for the C5 witness, VM fetch failing with a
non-404 error. -/
def tenvVMErrW : TeardownEnv :=
  { tenvAbsentW with vmGet := .err (.raw "vm get refused") }

/-- C5 witness: the theorem applied at an absent VM/NIC environment and at
a failing VM fetch environment. -/
theorem teardown_tolerates_absence_witness :
    tenvAbsentW.vmGet = .notFound ∧
    tenvAbsentW.nicFetch = .notFound ∧
    (deleteVMNicDisks tenvAbsentW "rg" "vm-1" "vm-1-nic" "vm-1-os-disk"
        ["vm-1-0-data-disk"]).vmDeleteIssued = false ∧
    (deleteVMNicDisks tenvAbsentW "rg" "vm-1" "vm-1-nic" "vm-1-os-disk"
        ["vm-1-0-data-disk"]).deletionPhaseRun = true ∧
    nicDeleter tenvAbsentW "vm-1-nic" = (.ok (), false) ∧
    tenvVMErrW.vmGet = .err (.raw "vm get refused") ∧
    (deleteVMNicDisks tenvVMErrW "rg" "vm-1" "vm-1-nic" "vm-1-os-disk"
        ["vm-1-0-data-disk"]).result =
      .error (.armFail prometheusServiceVM (.raw "vm get refused")) := by
  have hA := teardown_tolerates_absence tenvAbsentW "rg" "vm-1" "vm-1-nic" "vm-1-os-disk"
    ["vm-1-0-data-disk"] (.raw "vm get refused")
  have hB := teardown_tolerates_absence tenvVMErrW "rg" "vm-1" "vm-1-nic" "vm-1-os-disk"
    ["vm-1-0-data-disk"] (.raw "vm get refused")
  refine ⟨rfl, rfl, (hA.1 rfl).2.1, (hA.1 rfl).2.2, hA.2.2 rfl, rfl, ?_⟩
  rw [hB.2.1 rfl]

/-! ## Trace lemmas for the provisioning orchestrator -/

theorem vmPhase_flags (env : CreateEnv) (tenv : TeardownEnv) (spec : AzureProviderSpec)
    (args : TeardownArgs) (vmImageRef : Option VMImage) (nicID : String) (img mg mc : Bool) :
    (vmPhase env tenv spec args vmImageRef nicID img mg mc).imageGetIssued = img ∧
    (vmPhase env tenv spec args vmImageRef nicID img mg mc).mktGetIssued = mg ∧
    (vmPhase env tenv spec args vmImageRef nicID img mg mc).mktCreateIssued = mc := by
  refine ⟨?_, ?_, ?_⟩ <;>
    · unfold vmPhase
      (repeat' split) <;> rfl

theorem vmPhase_derivedNames (env : CreateEnv) (tenv : TeardownEnv) (spec : AzureProviderSpec)
    (args : TeardownArgs) (vmImageRef : Option VMImage) (nicID : String) (img mg mc : Bool) :
    (vmPhase env tenv spec args vmImageRef nicID img mg mc).derivedNames = some args := by
  unfold vmPhase
  (repeat' split) <;> rfl

theorem createVMNicDisk_derivedNames (env : CreateEnv) (tenv : TeardownEnv) (name : String)
    (spec : AzureProviderSpec) (hd : env.decode = .ok spec) :
    (createVMNicDisk env tenv name).derivedNames = some (derivedTeardownArgs spec name) := by
  unfold createVMNicDisk
  rw [hd]
  dsimp only
  (repeat' split) <;> first
    | rfl
    | apply vmPhase_derivedNames

theorem createVMNicDisk_flags_of_explicit_id (env : CreateEnv) (tenv : TeardownEnv)
    (name : String) (spec : AzureProviderSpec) (hd : env.decode = .ok spec)
    (hne : spec.imageReference.id ≠ "") :
    (createVMNicDisk env tenv name).imageGetIssued = false ∧
    (createVMNicDisk env tenv name).mktGetIssued = false ∧
    (createVMNicDisk env tenv name).mktCreateIssued = false := by
  have hip : imagePhase env spec = .done none false false false := by
    unfold imagePhase
    rw [if_neg hne]
  refine ⟨?_, ?_, ?_⟩ <;>
    · unfold createVMNicDisk
      rw [hd]
      simp only [hip]
      (repeat' split) <;> first
        | rfl
        | exact (vmPhase_flags env tenv spec (derivedTeardownArgs spec name) none _ false false
            false).1
        | exact (vmPhase_flags env tenv spec (derivedTeardownArgs spec name) none _ false false
            false).2.1
        | exact (vmPhase_flags env tenv spec (derivedTeardownArgs spec name) none _ false false
            false).2.2

/-! ## Claim C7 — explicit image ID bypasses lookup and marketplace -/

/-- C7: when the image reference carries a non-empty explicit ID, the
image reference is built from the ID alone, and the whole creation run
issues neither the image fetch nor any marketplace-agreement call; the
URN is split into publisher/offer/sku/version components only on the
empty-ID path. -/
theorem explicit_image_id_bypasses_marketplace
    (env : CreateEnv) (tenv : TeardownEnv) (name : String) (spec spec2 : AzureProviderSpec)
    (u publisher offer sku version : String) (rest : List String)
    (hd : env.decode = .ok spec) (hne : spec.imageReference.id ≠ "") :
    getImageReference spec =
      some { id := some spec.imageReference.id
             publisher := none
             offer := none
             sku := none
             version := none } ∧
    (createVMNicDisk env tenv name).imageGetIssued = false ∧
    (createVMNicDisk env tenv name).mktGetIssued = false ∧
    (createVMNicDisk env tenv name).mktCreateIssued = false ∧
    (spec2.imageReference.id = "" → spec2.imageReference.urn = some u →
        stringsSplit u ':' = publisher :: offer :: sku :: version :: rest →
        getImageReference spec2 =
          some { id := none
                 publisher := some publisher
                 offer := some offer
                 sku := some sku
                 version := some version }) := by
  obtain ⟨h1, h2, h3⟩ := createVMNicDisk_flags_of_explicit_id env tenv name spec hd hne
  refine ⟨by simp [getImageReference, hne], h1, h2, h3, ?_⟩
  intro hid2 hurn2 hsplit2
  simp [getImageReference, hid2, hurn2, hsplit2]

/-- Spec for the C7 witness: explicit image ID, marketplace never needed. -/
def specIdW : AzureProviderSpec :=
  { specZoneW with imageReference := { id := "custom-image-id", urn := none } }

/-- Environment for the C7 witness. -/
def envIdW : CreateEnv :=
  { envBadUrnW with decode := .ok specIdW }

/-- Spec whose URN must be split for the C7 witness. -/
def specUrnW : AzureProviderSpec :=
  { specZoneW with imageReference := { id := "", urn := some "canonical:ubuntu:18.04:latest" } }

/-- C7 witness: the theorem applied at the explicit-ID environment, plus
the URN-splitting conclusion at a four-component URN. -/
theorem explicit_image_id_bypasses_marketplace_witness :
    envIdW.decode = .ok specIdW ∧
    specIdW.imageReference.id ≠ "" ∧
    getImageReference specIdW =
      some { id := some "custom-image-id"
             publisher := none
             offer := none
             sku := none
             version := none } ∧
    (createVMNicDisk envIdW tenvOkW "vm-1").imageGetIssued = false ∧
    (createVMNicDisk envIdW tenvOkW "vm-1").mktGetIssued = false ∧
    (createVMNicDisk envIdW tenvOkW "vm-1").mktCreateIssued = false ∧
    getImageReference specUrnW =
      some { id := none
             publisher := some "canonical"
             offer := some "ubuntu"
             sku := some "18.04"
             version := some "latest" } := by
  have h := explicit_image_id_bypasses_marketplace envIdW tenvOkW "vm-1" specIdW specUrnW
    "canonical:ubuntu:18.04:latest" "canonical" "ubuntu" "18.04" "latest" [] rfl (by decide)
  exact ⟨rfl, by decide, h.1, h.2.1, h.2.2.1, h.2.2.2.1, h.2.2.2.2 rfl rfl (by decide)⟩

/-! ## Claim C9 — machine name lowercased before name derivation -/

theorem derivedTeardownArgs_congr (spec : AzureProviderSpec) (n1 n2 : String)
    (hl : stringsToLower n1 = stringsToLower n2) :
    derivedTeardownArgs spec n1 = derivedTeardownArgs spec n2 := by
  unfold derivedTeardownArgs
  rw [hl]

/-- C9: `createVMNicDisk` lowercases the requested machine name before
deriving the VM name and every dependent resource name, so two requests
whose machine names agree up to letter case produce identical runs; the
derived VM/NIC/OS-disk/data-disk names are all functions of the lowercased
name. -/
theorem machine_name_lowercased_before_derivation
    (env : CreateEnv) (tenv : TeardownEnv) (n1 n2 : String) (spec : AzureProviderSpec)
    (hl : stringsToLower n1 = stringsToLower n2) (hd : env.decode = .ok spec) :
    createVMNicDisk env tenv n1 = createVMNicDisk env tenv n2 ∧
    (createVMNicDisk env tenv n1).derivedNames = some (derivedTeardownArgs spec n1) ∧
    (derivedTeardownArgs spec n1).vmName = stringsToLower n1 ∧
    (derivedTeardownArgs spec n1).nicName =
      dependencyNameFromVMName (stringsToLower n1) nicSuffix ∧
    (derivedTeardownArgs spec n1).diskName =
      dependencyNameFromVMName (stringsToLower n1) diskSuffix ∧
    (∀ dds : List AzureDataDisk, spec.dataDisks = some dds → 0 < dds.length →
        (derivedTeardownArgs spec n1).dataDiskNames =
          getAzureDataDiskNames dds (stringsToLower n1) dataDiskSuffix) := by
  refine ⟨?_, createVMNicDisk_derivedNames env tenv n1 spec hd, rfl, rfl, rfl, ?_⟩
  · have hcongr : ∀ ps : AzureProviderSpec,
        derivedTeardownArgs ps n1 = derivedTeardownArgs ps n2 :=
      fun ps => derivedTeardownArgs_congr ps n1 n2 hl
    unfold createVMNicDisk
    simp only [hcongr]
  · intro dds hdds hlen
    simp [derivedTeardownArgs, hdds, hlen]

/-- Environment for the C9 witness (decode yields `specIdW`). -/
def envLowerW : CreateEnv := envIdW

/-- C9 witness: `"VM-1"` and `"vm-1"` produce the same run, and the
derived names come from the lowercased `"vm-1"`. -/
theorem machine_name_lowercased_before_derivation_witness :
    stringsToLower "VM-1" = stringsToLower "vm-1" ∧
    envLowerW.decode = .ok specIdW ∧
    createVMNicDisk envLowerW tenvOkW "VM-1" = createVMNicDisk envLowerW tenvOkW "vm-1" ∧
    (derivedTeardownArgs specIdW "VM-1").vmName = "vm-1" ∧
    (derivedTeardownArgs specIdW "VM-1").nicName = "vm-1-nic" ∧
    (derivedTeardownArgs specIdW "VM-1").diskName = "vm-1-os-disk" := by
  have h := machine_name_lowercased_before_derivation envLowerW tenvOkW "VM-1" "vm-1" specIdW
    (by decide) rfl
  exact ⟨by decide, rfl, h.1, by decide, by decide, by decide⟩

/-! ## Claim C1 — rollback on every post-subnet creation failure -/

/-- What the claim requires of a failed creation step: the surfaced
outcome is the original step error, teardown was invoked exactly once with
the derived names, its result only feeds the log, and when the teardown
attempt itself fails its error appears in the log while the original
creation error is still the surfaced one. -/
def rolledBackWith (r : CreateResult) (tenv : TeardownEnv) (args : TeardownArgs)
    (surfaced : MockErr) : Prop :=
  r.outcome = .failure surfaced ∧
  r.teardownCalls = [args] ∧
  r.loggedErrors = invokeTeardown tenv args ∧
  ∀ te : MockErr,
    (deleteVMNicDisks tenv args.resourceGroupName args.vmName args.nicName args.diskName
        args.dataDiskNames).result = .error te →
    r.loggedErrors = [te]

theorem rollbackAndFail_rolledBack (tenv : TeardownEnv) (args : TeardownArgs) (e : MockErr)
    (img mg mc : Bool) :
    rolledBackWith (rollbackAndFail tenv args e img mg mc) tenv args e := by
  refine ⟨rfl, rfl, rfl, ?_⟩
  intro te hte
  simp [rollbackAndFail, invokeTeardown, hte]

theorem imagePhase_done_isSome (env : CreateEnv) (spec : AzureProviderSpec)
    (ref : Option VMImage) (img mg mc : Bool)
    (h : imagePhase env spec = .done ref img mg mc) :
    (getImageReference spec).isSome := by
  by_cases hid : spec.imageReference.id = ""
  · unfold imagePhase at h
    rw [if_pos hid] at h
    cases hir : getImageReference spec with
    | none => rw [hir] at h; simp at h
    | some ir => simp [hir]
  · simp [getImageReference, hid]

theorem getVMParameters_isSome_of (spec : AzureProviderSpec) (vmName : String)
    (image : Option VMImage) (nicID : String)
    (h : (getImageReference spec).isSome) :
    (getVMParameters spec vmName image nicID).isSome := by
  obtain ⟨ir, hir⟩ := Option.isSome_iff_exists.mp h
  simp only [getVMParameters.eq_def, hir]
  simp

/-- C1: once the subnet is resolved, every failing creation step — NIC
submit/await/fetch, image fetch, marketplace-agreement fetch/accept, VM
submit/await/fetch — invokes teardown of the already-nameable resources
and surfaces the original step error; a failing teardown attempt only
contributes a logged error and the original creation error is still the
one returned. -/
theorem create_failure_rolls_back_and_surfaces_original_error
    (env : CreateEnv) (tenv : TeardownEnv) (name : String) (spec : AzureProviderSpec)
    (nicID : String) (ir : ImageReference) (vmImage : VMImage) (planRef : PlanRef)
    (agreement : Agreement) (vmImageRef : Option VMImage) (img mg mc : Bool) (e : MockErr)
    (hd : env.decode = .ok spec) (hs : env.setup = .ok ()) (hsub : env.subnetGet = .ok ()) :
    (env.nicSubmit = .error e →
        rolledBackWith (createVMNicDisk env tenv name) tenv (derivedTeardownArgs spec name)
          (.armFail prometheusServiceNIC e)) ∧
    (env.nicSubmit = .ok () → env.nicAwait = .error e →
        rolledBackWith (createVMNicDisk env tenv name) tenv (derivedTeardownArgs spec name)
          (.armFail prometheusServiceNIC e)) ∧
    (env.nicSubmit = .ok () → env.nicAwait = .ok () → env.nicResult = .error e →
        rolledBackWith (createVMNicDisk env tenv name) tenv (derivedTeardownArgs spec name) e) ∧
    (env.nicSubmit = .ok () → env.nicAwait = .ok () → env.nicResult = .ok nicID →
        spec.imageReference.id = "" → getImageReference spec = some ir →
        env.imageGet = .error e →
        rolledBackWith (createVMNicDisk env tenv name) tenv (derivedTeardownArgs spec name)
          (.armFail prometheusServiceVM e)) ∧
    (env.nicSubmit = .ok () → env.nicAwait = .ok () → env.nicResult = .ok nicID →
        spec.imageReference.id = "" → getImageReference spec = some ir →
        env.imageGet = .ok vmImage → vmImage.plan = some planRef →
        env.mktGet = .error e →
        rolledBackWith (createVMNicDisk env tenv name) tenv (derivedTeardownArgs spec name)
          (.armFail prometheusServiceVM e)) ∧
    (env.nicSubmit = .ok () → env.nicAwait = .ok () → env.nicResult = .ok nicID →
        spec.imageReference.id = "" → getImageReference spec = some ir →
        env.imageGet = .ok vmImage → vmImage.plan = some planRef →
        env.mktGet = .ok agreement → agreement.accepted ≠ some true →
        env.mktCreate = .error e →
        rolledBackWith (createVMNicDisk env tenv name) tenv (derivedTeardownArgs spec name)
          (.armFail prometheusServiceVM e)) ∧
    (env.nicSubmit = .ok () → env.nicAwait = .ok () → env.nicResult = .ok nicID →
        imagePhase env spec = .done vmImageRef img mg mc →
        env.vmSubmit = .error e →
        rolledBackWith (createVMNicDisk env tenv name) tenv (derivedTeardownArgs spec name)
          (.armFail prometheusServiceVM e)) ∧
    (env.nicSubmit = .ok () → env.nicAwait = .ok () → env.nicResult = .ok nicID →
        imagePhase env spec = .done vmImageRef img mg mc →
        env.vmSubmit = .ok () → env.vmAwait = .error e →
        rolledBackWith (createVMNicDisk env tenv name) tenv (derivedTeardownArgs spec name)
          (.armFail prometheusServiceVM e)) ∧
    (env.nicSubmit = .ok () → env.nicAwait = .ok () → env.nicResult = .ok nicID →
        imagePhase env spec = .done vmImageRef img mg mc →
        env.vmSubmit = .ok () → env.vmAwait = .ok () → env.vmResult = .error e →
        rolledBackWith (createVMNicDisk env tenv name) tenv (derivedTeardownArgs spec name)
          (.armFail prometheusServiceVM e)) := by
  refine ⟨?_, ?_, ?_, ?_, ?_, ?_, ?_, ?_, ?_⟩
  · intro hns
    simp only [createVMNicDisk, hd, hs, hsub, hns]
    exact rollbackAndFail_rolledBack tenv (derivedTeardownArgs spec name) _ false false false
  · intro hns hna
    simp only [createVMNicDisk, hd, hs, hsub, hns, hna]
    exact rollbackAndFail_rolledBack tenv (derivedTeardownArgs spec name) _ false false false
  · intro hns hna hnr
    simp only [createVMNicDisk, hd, hs, hsub, hns, hna, hnr]
    exact rollbackAndFail_rolledBack tenv (derivedTeardownArgs spec name) _ false false false
  · intro hns hna hnr hid hir himg
    simp only [createVMNicDisk, hd, hs, hsub, hns, hna, hnr]
    have hip : imagePhase env spec = .failed (.armFail prometheusServiceVM e) true false false := by
      simp [imagePhase, hid, hir, himg]
    simp only [hip]
    exact rollbackAndFail_rolledBack tenv (derivedTeardownArgs spec name) _ true false false
  · intro hns hna hnr hid hir himg hplan hmkt
    simp only [createVMNicDisk, hd, hs, hsub, hns, hna, hnr]
    have hip : imagePhase env spec = .failed (.armFail prometheusServiceVM e) true true false := by
      simp [imagePhase, hid, hir, himg, hplan, hmkt]
    simp only [hip]
    exact rollbackAndFail_rolledBack tenv (derivedTeardownArgs spec name) _ true true false
  · intro hns hna hnr hid hir himg hplan hmkt hacc hmc
    simp only [createVMNicDisk, hd, hs, hsub, hns, hna, hnr]
    have hip : imagePhase env spec = .failed (.armFail prometheusServiceVM e) true true true := by
      simp [imagePhase, hid, hir, himg, hplan, hmkt, hacc, hmc]
    simp only [hip]
    exact rollbackAndFail_rolledBack tenv (derivedTeardownArgs spec name) _ true true true
  · intro hns hna hnr hip hvs
    simp only [createVMNicDisk, hd, hs, hsub, hns, hna, hnr, hip]
    obtain ⟨vmp, hvmp⟩ := Option.isSome_iff_exists.mp
      (getVMParameters_isSome_of spec (derivedTeardownArgs spec name).vmName vmImageRef nicID
        (imagePhase_done_isSome env spec vmImageRef img mg mc hip))
    simp only [vmPhase, hvmp, hvs]
    exact rollbackAndFail_rolledBack tenv (derivedTeardownArgs spec name) _ img mg mc
  · intro hns hna hnr hip hvs hva
    simp only [createVMNicDisk, hd, hs, hsub, hns, hna, hnr, hip]
    obtain ⟨vmp, hvmp⟩ := Option.isSome_iff_exists.mp
      (getVMParameters_isSome_of spec (derivedTeardownArgs spec name).vmName vmImageRef nicID
        (imagePhase_done_isSome env spec vmImageRef img mg mc hip))
    simp only [vmPhase, hvmp, hvs, hva]
    exact rollbackAndFail_rolledBack tenv (derivedTeardownArgs spec name) _ img mg mc
  · intro hns hna hnr hip hvs hva hvr
    simp only [createVMNicDisk, hd, hs, hsub, hns, hna, hnr, hip]
    obtain ⟨vmp, hvmp⟩ := Option.isSome_iff_exists.mp
      (getVMParameters_isSome_of spec (derivedTeardownArgs spec name).vmName vmImageRef nicID
        (imagePhase_done_isSome env spec vmImageRef img mg mc hip))
    simp only [vmPhase, hvmp, hvs, hva, hvr]
    exact rollbackAndFail_rolledBack tenv (derivedTeardownArgs spec name) _ img mg mc

/-- Environment for the C1 witness: NIC submission is refused, everything
before it succeeds. -/
def envFailNicW : CreateEnv :=
  { envIdW with nicSubmit := .error (.raw "nic submit refused") }

/-- Teardown environment for the C1 witness whose own deletion phase
fails (the OS-disk delete is refused), so the rollback attempt errors. -/
def tenvFailW : TeardownEnv :=
  { tenvOkW with osDiskDelete := .err (.raw "disk delete refused") }

/-- C1 witness: the NIC-submit failure rolls back via the failing teardown
environment; the teardown error is only logged and the surfaced error is
the original NIC-submit error. -/
theorem create_failure_rolls_back_and_surfaces_original_error_witness :
    envFailNicW.decode = .ok specIdW ∧
    envFailNicW.setup = .ok () ∧
    envFailNicW.subnetGet = .ok () ∧
    envFailNicW.nicSubmit = .error (.raw "nic submit refused") ∧
    rolledBackWith (createVMNicDisk envFailNicW tenvFailW "vm-1") tenvFailW
      (derivedTeardownArgs specIdW "vm-1")
      (.armFail prometheusServiceNIC (.raw "nic submit refused")) ∧
    (createVMNicDisk envFailNicW tenvFailW "vm-1").loggedErrors =
      [.aggregate [.raw "disk delete refused"]] := by
  have h := create_failure_rolls_back_and_surfaces_original_error envFailNicW tenvFailW "vm-1"
    specIdW "nic-id" { id := none, publisher := none, offer := none, sku := none, version := none }
    { plan := none } { name := "p", product := "p", publisher := "p" } { accepted := none }
    none false false false (.raw "nic submit refused") rfl rfl rfl
  have hrb := h.1 rfl
  refine ⟨rfl, rfl, rfl, rfl, hrb, ?_⟩
  exact hrb.2.2.2 (.aggregate [.raw "disk delete refused"]) rfl

end AzureProvider
